import Mathlib

/-!
Verification of the `node-ratelimiter` quota tracker.

The development shallowly embeds the two source variants of the limiter
(`src/index.js` and the unnamed near-duplicate variant) as pure Lean
functions over an explicit store state.  One `query` call is modelled as a
sequence of attempts; each attempt consists of a probe read of the store,
the branch between the create ("Initialize") and decrement paths, the
operations sent in the MULTI transaction, and the store's reply to `exec`
(which decides commit / conflict / error).  JavaScript value coercions
(`~~`, falsyness, strict equality with `0`) are embedded explicitly on a
small JavaScript value type.
-/

namespace RateLimiter

/-- Signed 32-bit wrap-around, the result range of JavaScript `|0` / `~~`. -/
def toInt32 (x : Int) : Int := (x + 2 ^ 31) % 2 ^ 32 - 2 ^ 31

/-- A JavaScript value as it appears in a store reply: `null`/`undefined`
(absent key), a bulk string, or a number (clients that decode numbers). -/
inductive JSVal where
  | null
  | str (s : String)
  | num (i : Int)
deriving DecidableEq

/-- JavaScript falsyness of a reply value (`!v`). -/
def jsFalsy : JSVal → Bool
  | .null => true
  | .str s => s == ""
  | .num i => i == 0

/-- JavaScript strict equality with the number `0` (`v === 0`). -/
def jsStrictEqZero : JSVal → Bool
  | .num i => i == 0
  | _ => false

/-- The branch condition of `mget` in the source:
`!res[0] && res[0] !== 0` sends the call to `create`. -/
def isAbsentBranch (v : JSVal) : Bool := jsFalsy v && !jsStrictEqZero v

/-- Decimal digit test on a character. -/
def isDigitChar (c : Char) : Bool := 48 ≤ c.toNat && c.toNat ≤ 57

/-- Accumulate a decimal digit list into a natural number. -/
def readNat (l : List Char) : Nat := l.foldl (fun acc c => acc * 10 + (c.toNat - 48)) 0

/-- Model of JavaScript `ToNumber` restricted to integer-literal strings
(the only string values this code ever stores): an optional sign followed
by decimal digits.  Anything else reads as non-numeric (`NaN`). -/
def strToIntModel (s : String) : Option Int :=
  match s.data with
  | [] => none
  | '-' :: rest =>
      if (!rest.isEmpty) && rest.all isDigitChar then some (-(readNat rest : Int)) else none
  | l => if l.all isDigitChar then some ((readNat l : Int)) else none

/-- The `~~` coercion applied to a reply value: `ToNumber` then `ToInt32`.
`~~null = 0`, a non-numeric string reads as `NaN` hence `0`, and numbers
wrap into the signed 32-bit range. -/
def jsToInt32 : JSVal → Int
  | .null => 0
  | .num i => toInt32 i
  | .str s =>
      match strToIntModel s with
      | some i => toInt32 i
      | none => 0

/-- The raw reply of `exec`, in the two client shapes the source supports:
missing (`null`) replies, bare values (node_redis) or error/value pairs
(ioredis). -/
inductive MultiReply where
  | missing
  | bare (items : List JSVal)
  | paired (items : List (JSVal × JSVal))
deriving DecidableEq

/-- Embeds `isFirstReplyNull` from the source: `!replies` is true for a
missing reply; otherwise the first item is inspected, through `[1]` when it
is itself an array (ioredis pairs), and tested for falsyness.  An empty
reply list gives an `undefined` first item, which is falsy. -/
def isFirstReplyNull : MultiReply → Bool
  | .missing => true
  | .bare [] => true
  | .bare (v :: _) => jsFalsy v
  | .paired [] => true
  | .paired ((_, v) :: _) => jsFalsy v

/-- A stored key's state: its integer value and its remaining TTL in
milliseconds. -/
structure Entry where
  value : Int
  pttl : Int
deriving DecidableEq

/-- The store state seen by the `src/index.js` variant: the `count` and
`reset` keys derived from the identifier. -/
structure Store where
  count : Option Entry
  reset : Option Entry
deriving DecidableEq

/-- Which decoding convention the store client uses for `mget` replies. -/
inductive ReplyConv where
  | strings
  | numbers
deriving DecidableEq

/-- Renders a stored value as the client reply: absent keys read as `null`,
present integer values come back as their decimal string (node_redis) or as
a number (clients that decode numerals). -/
def render : ReplyConv → Option Int → JSVal
  | _, none => .null
  | .strings, some i => .str (toString i)
  | .numbers, some i => .num i

/-- `'limit:' + id + ':'`, the key namespace of the limiter. -/
def keyBase (id : String) : String := "limit:" ++ id ++ ":"

/-- The `count` key name. -/
def countKey (id : String) : String := keyBase id ++ "count"

/-- The `reset` key name. -/
def resetKey (id : String) : String := keyBase id ++ "reset"

/-- The `limit` key name (only used by the unnamed variant). -/
def limitKey (id : String) : String := keyBase id ++ "limit"

/-- A write operation sent inside the MULTI transaction. -/
inductive Op where
  | setNX (key : String) (value : Int) (px : Int)
  | setXX (key : String) (value : Int) (px : Int)
  | pexpire (key : String) (px : Int)
deriving DecidableEq

/-- The key an operation addresses. -/
def opKey : Op → String
  | .setNX k _ _ => k
  | .setXX k _ _ => k
  | .pexpire k _ => k

/-- The millisecond expiration an operation carries. -/
def opPx : Op → Int
  | .setNX _ _ px => px
  | .setXX _ _ px => px
  | .pexpire _ px => px

/-- Store-side effect of one committed operation on the two-key state. -/
def applyOp (id : String) (σ : Store) : Op → Store
  | .setNX k v px =>
      if k = countKey id then
        (if σ.count.isNone then { σ with count := some ⟨v, px⟩ } else σ)
      else if k = resetKey id then
        (if σ.reset.isNone then { σ with reset := some ⟨v, px⟩ } else σ)
      else σ
  | .setXX k v px =>
      if k = countKey id then
        (if σ.count.isSome then { σ with count := some ⟨v, px⟩ } else σ)
      else if k = resetKey id then
        (if σ.reset.isSome then { σ with reset := some ⟨v, px⟩ } else σ)
      else σ
  | .pexpire k px =>
      if k = countKey id then
        (match σ.count with
         | some e => { σ with count := some ⟨e.value, px⟩ }
         | none => σ)
      else if k = resetKey id then
        (match σ.reset with
         | some e => { σ with reset := some ⟨e.value, px⟩ }
         | none => σ)
      else σ

/-- Store-side effect of a committed transaction. -/
def applyOps (id : String) (σ : Store) (ops : List Op) : Store :=
  ops.foldl (applyOp id) σ

/-- `(Date.now() + duration) / 1000 | 0`: the reset epoch-second computed
at creation.  The clock and duration are nonnegative milliseconds, so the
JavaScript float division truncated by `|0` is natural floor division
followed by the 32-bit wrap. -/
def resetEpoch (now duration : Nat) : Int := toInt32 (((now + duration) / 1000 : Nat) : Int)

/-- The result object passed to the callback. -/
structure Result where
  total : Int
  remaining : Int
  reset : Int
deriving DecidableEq

/-- Outcome of a single attempt: a result delivered to the caller, a
restart of the protocol (`retry`), or a store error propagated verbatim. -/
inductive StepOut where
  | ok (r : Result)
  | retry
  | fail
deriving DecidableEq

/-- One attempt of the protocol: the store snapshot read at the probe, the
clock value during the attempt, and the store's response to `exec` (an
error flag and the raw replies). -/
structure Attempt where
  store : Store
  now : Nat
  txnErr : Bool
  txn : MultiReply
deriving DecidableEq

/-- One attempt of the `src/index.js` variant.  Mirrors `mget` / `create` /
`decr`: branch on `!res[0] && res[0] !== 0`; in `create` compute the reset
epoch and `Math.max(max - (decrBy - 1), 0)` and report them on commit; in
`decr` parse `n = ~~res[0]`, `ex = ~~res[1]`, short-circuit when `n <= 0`,
otherwise report `Math.max(n - decrBy, 0)` on commit.  A null first reply
restarts the protocol, an `exec` error propagates. -/
def attemptStep (conv : ReplyConv) (mx : Int) (duration : Nat) (decrBy : Int)
    (a : Attempt) : StepOut :=
  let r0 := render conv (a.store.count.map Entry.value)
  let r1 := render conv (a.store.reset.map Entry.value)
  if isAbsentBranch r0 then
    if a.txnErr then .fail
    else if isFirstReplyNull a.txn then .retry
    else .ok { total := mx, remaining := Max.max (mx - (decrBy - 1)) 0,
               reset := resetEpoch a.now duration }
  else
    let n := jsToInt32 r0
    let ex := jsToInt32 r1
    if n ≤ 0 then .ok { total := mx, remaining := Max.max n 0, reset := ex }
    else if a.txnErr then .fail
    else if isFirstReplyNull a.txn then .retry
    else .ok { total := mx, remaining := Max.max (n - decrBy) 0, reset := ex }

/-- The operations the `src/index.js` variant sends in its MULTI
transaction during one attempt (empty when the attempt issues no
transaction at all, i.e. on the exhausted short-circuit). -/
def attemptOps (conv : ReplyConv) (id : String) (mx : Int) (duration : Nat) (decrBy : Int)
    (a : Attempt) : List Op :=
  let r0 := render conv (a.store.count.map Entry.value)
  let r1 := render conv (a.store.reset.map Entry.value)
  if isAbsentBranch r0 then
    [ .setNX (countKey id) (Max.max (mx - (decrBy - 1)) 0) (duration : Int),
      .setNX (resetKey id) (resetEpoch a.now duration) (duration : Int) ]
  else
    let n := jsToInt32 r0
    let ex := jsToInt32 r1
    if n ≤ 0 then []
    else
      [ .setXX (countKey id) (n - decrBy) (ex * 1000 - (a.now : Int)),
        .pexpire (resetKey id) (ex * 1000 - (a.now : Int)) ]

/-- Whether the attempt reaches `exec` at all (create path, or decrement
path with positive parsed count). -/
def attemptIssuesTxn (conv : ReplyConv) (a : Attempt) : Bool :=
  let r0 := render conv (a.store.count.map Entry.value)
  isAbsentBranch r0 || decide (0 < jsToInt32 r0)

/-- What a whole `query` call delivers to its callback. -/
inductive QueryOutcome where
  | ok (r : Result)
  | err
deriving DecidableEq

/-- A `query` call as a run over successive attempts: each conflicted
attempt restarts the protocol against the next probe snapshot.  `none`
means the call is still retrying when the attempt list runs out. -/
def runQuery (conv : ReplyConv) (mx : Int) (duration : Nat) (decrBy : Int) :
    List Attempt → Option QueryOutcome
  | [] => none
  | a :: rest =>
      match attemptStep conv mx duration decrBy a with
      | .ok r => some (.ok r)
      | .fail => some .err
      | .retry => runQuery conv mx duration decrBy rest

/-- The store state seen by the unnamed variant, which also maintains a
`limit` key holding the maximum used at creation. -/
structure StoreB where
  count : Option Entry
  limit : Option Entry
  reset : Option Entry
deriving DecidableEq

/-- One attempt of the unnamed variant (`src/unnamed/part_000`).  Its
`create` also sets the `limit` key to the configured maximum without
clamping; its `decr` always consumes one unit, parses the reported total
from the stored `limit` value (`max = ~~res[1]`), and clamps remaining with
`n < 0 ? 0 : n`. -/
def attemptStepB (conv : ReplyConv) (mx : Int) (duration : Nat)
    (σ : StoreB) (now : Nat) (txnErr : Bool) (txn : MultiReply) : StepOut :=
  let r0 := render conv (σ.count.map Entry.value)
  let r1 := render conv (σ.limit.map Entry.value)
  let r2 := render conv (σ.reset.map Entry.value)
  if isAbsentBranch r0 then
    if txnErr then .fail
    else if isFirstReplyNull txn then .retry
    else .ok { total := mx, remaining := mx, reset := resetEpoch now duration }
  else
    let n := jsToInt32 r0
    let mxr := jsToInt32 r1
    let ex := jsToInt32 r2
    if n ≤ 0 then .ok { total := mxr, remaining := if n < 0 then 0 else n, reset := ex }
    else if txnErr then .fail
    else if isFirstReplyNull txn then .retry
    else .ok { total := mxr, remaining := if n - 1 < 0 then 0 else n - 1, reset := ex }

/-- The operations the unnamed variant sends in its MULTI transaction
during one attempt. -/
def attemptOpsB (conv : ReplyConv) (id : String) (mx : Int) (duration : Nat)
    (σ : StoreB) (now : Nat) : List Op :=
  let r0 := render conv (σ.count.map Entry.value)
  let r2 := render conv (σ.reset.map Entry.value)
  if isAbsentBranch r0 then
    [ .setNX (countKey id) mx (duration : Int),
      .setNX (limitKey id) mx (duration : Int),
      .setNX (resetKey id) (resetEpoch now duration) (duration : Int) ]
  else
    let n := jsToInt32 r0
    let ex := jsToInt32 r2
    if n ≤ 0 then []
    else
      [ .setXX (countKey id) (n - 1) (ex * 1000 - (now : Int)),
        .pexpire (limitKey id) (ex * 1000 - (now : Int)),
        .pexpire (resetKey id) (ex * 1000 - (now : Int)) ]

/-! ### Helper lemmas -/

theorem toDigitsCore_len_ge (b : Nat) : ∀ (f n : Nat) (ds : List Char),
    ds.length ≤ (Nat.toDigitsCore b f n ds).length := by
  intro f
  induction f with
  | zero => intro n ds; simp [Nat.toDigitsCore]
  | succ f ih =>
    intro n ds
    rw [Nat.toDigitsCore]
    by_cases h : n / b = 0
    · simp [h]
    · rw [if_neg h]
      calc ds.length ≤ (Nat.digitChar (n % b) :: ds).length := by simp
        _ ≤ _ := ih _ _

theorem toDigits_ne_nil (b n : Nat) : Nat.toDigits b n ≠ [] := by
  rw [Nat.toDigits, Nat.toDigitsCore]
  by_cases h : n / b = 0
  · simp [h]
  · rw [if_neg h]
    intro hc
    have hlen := toDigitsCore_len_ge b n (n / b) [Nat.digitChar (n % b)]
    rw [hc] at hlen
    simp at hlen

theorem nat_repr_ne_empty (n : Nat) : Nat.repr n ≠ "" := by
  rw [Nat.repr]
  intro h
  have hd : (Nat.toDigits 10 n) = [] := by
    have := congrArg String.data h
    simpa [List.asString] using this
  exact toDigits_ne_nil 10 n hd

theorem int_toString_ne_empty (i : Int) : toString i ≠ "" := by
  cases i with
  | ofNat m => exact nat_repr_ne_empty m
  | negSucc m =>
    show ("-" ++ toString (m + 1)) ≠ ""
    intro h
    have := congrArg String.data h
    simp [String.data_append] at this

theorem str_append_inj (p a b : String) (h : p ++ a = p ++ b) : a = b := by
  have hd := congrArg String.data h
  simp only [String.data_append] at hd
  exact String.ext (List.append_cancel_left hd)

theorem countKey_ne_resetKey (id : String) : countKey id ≠ resetKey id := by
  intro h
  have := str_append_inj (keyBase id) "count" "reset" h
  exact absurd (congrArg String.data this) (by decide)

theorem countKey_ne_limitKey (id : String) : countKey id ≠ limitKey id := by
  intro h
  have := str_append_inj (keyBase id) "count" "limit" h
  exact absurd (congrArg String.data this) (by decide)

theorem resetKey_ne_limitKey (id : String) : resetKey id ≠ limitKey id := by
  intro h
  have := str_append_inj (keyBase id) "reset" "limit" h
  exact absurd (congrArg String.data this) (by decide)

/-- The probe branch, computed on a rendered stored value, reads `create`
exactly on absence: a present integer renders as a nonempty decimal string
or a number, and the `!== 0` guard rescues the value zero under the
numeric convention. -/
theorem isAbsentBranch_render (conv : ReplyConv) (c : Option Int) :
    isAbsentBranch (render conv c) = c.isNone := by
  cases c with
  | none => cases conv <;> rfl
  | some i =>
    cases conv with
    | strings =>
      simp only [render, Option.isNone_some, isAbsentBranch, jsFalsy, jsStrictEqZero]
      rw [beq_eq_false_iff_ne.mpr (int_toString_ne_empty i)]
      rfl
    | numbers =>
      simp only [render, Option.isNone_some, isAbsentBranch, jsFalsy, jsStrictEqZero]
      by_cases h : i = 0 <;> simp [h]

theorem toInt32_eq_self (x : Int) (h0 : -2 ^ 31 ≤ x) (h1 : x < 2 ^ 31) :
    toInt32 x = x := by
  rw [toInt32, Int.emod_eq_of_lt (by omega) (by omega)]
  omega

theorem int_max_zero (a : Int) : Max.max a 0 = if a < 0 then 0 else a := by
  by_cases h : a < 0
  · simp [max_eq_right (le_of_lt h), h]
  · simp [max_eq_left (le_of_not_lt h), h]

/-! ### Claim theorems -/

/-- C1: a `query(n)` that finds no existing window and whose creation
transaction commits stores `count = max(0, maximum − (n − 1))` and
`reset = floor((now_ms + duration_ms) / 1000)` (both with the duration as
TTL), and returns `total = maximum`, `remaining = max(0, maximum − (n − 1))`
and that same reset epoch second. -/
theorem claimC1_fresh_create (conv : ReplyConv) (id : String) (mx decrBy : Int)
    (duration now : Nat) (txn : MultiReply) (σ : Store)
    (hcount : σ.count = none) (hreset : σ.reset = none)
    (_hdecr : 0 < decrBy)
    (hrange : (now + duration) / 1000 < 2 ^ 31)
    (hcommit : isFirstReplyNull txn = false) :
    attemptStep conv mx duration decrBy ⟨σ, now, false, txn⟩ =
      .ok { total := mx, remaining := Max.max 0 (mx - (decrBy - 1)),
            reset := (((now + duration) / 1000 : Nat) : Int) } ∧
    applyOps id σ (attemptOps conv id mx duration decrBy ⟨σ, now, false, txn⟩) =
      { count := some ⟨Max.max 0 (mx - (decrBy - 1)), (duration : Int)⟩,
        reset := some ⟨(((now + duration) / 1000 : Nat) : Int), (duration : Int)⟩ } := by
  have hbranch : isAbsentBranch (render conv (σ.count.map Entry.value)) = true := by
    rw [hcount]; cases conv <;> rfl
  have hre : resetEpoch now duration = (((now + duration) / 1000 : Nat) : Int) := by
    have hc : ((((now + duration) / 1000 : Nat)) : Int) < 2 ^ 31 := by exact_mod_cast hrange
    unfold resetEpoch toInt32
    omega
  have hmax : Max.max (mx - (decrBy - 1)) 0 = Max.max 0 (mx - (decrBy - 1)) := max_comm _ _
  constructor
  · simp [attemptStep, hbranch, hcommit, hre, hmax]
  · simp only [attemptOps, hbranch, if_true]
    simp only [applyOps, List.foldl, applyOp, if_pos rfl, hcount, Option.isNone_none, if_true,
      if_neg (Ne.symm (countKey_ne_resetKey id))]
    simp [hreset, hre, hmax]

/-- C1 witness: a concrete fresh-window creation. -/
theorem claimC1_witness :
    attemptStep .numbers 10 1000 2 ⟨⟨none, none⟩, 500, false, .bare [.str "OK"]⟩ =
      .ok { total := 10, remaining := Max.max 0 (10 - (2 - 1)),
            reset := (((500 + 1000) / 1000 : Nat) : Int) } ∧
    applyOps "i" ⟨none, none⟩
        (attemptOps .numbers "i" 10 1000 2 ⟨⟨none, none⟩, 500, false, .bare [.str "OK"]⟩) =
      { count := some ⟨Max.max 0 (10 - (2 - 1)), ((1000 : Nat) : Int)⟩,
        reset := some ⟨(((500 + 1000) / 1000 : Nat) : Int), ((1000 : Nat) : Int)⟩ } :=
  claimC1_fresh_create .numbers "i" 10 2 1000 500 (.bare [.str "OK"]) ⟨none, none⟩
    rfl rfl (by decide) (by decide) (by decide)

/-- C2: a committed decrement after reading a parsed count `n > 0` and a
parsed reset `ex` returns `total` equal to the querying instance's
configured maximum, `remaining = max(n − decrBy, 0)` and `reset = ex`. -/
theorem claimC2_decr_commit (conv : ReplyConv) (mx : Int) (duration : Nat) (decrBy : Int)
    (σ : Store) (now : Nat) (txn : MultiReply)
    (hpresent : isAbsentBranch (render conv (σ.count.map Entry.value)) = false)
    (hn : 0 < jsToInt32 (render conv (σ.count.map Entry.value)))
    (hcommit : isFirstReplyNull txn = false) :
    attemptStep conv mx duration decrBy ⟨σ, now, false, txn⟩ =
      .ok { total := mx,
            remaining := Max.max (jsToInt32 (render conv (σ.count.map Entry.value)) - decrBy) 0,
            reset := jsToInt32 (render conv (σ.reset.map Entry.value)) } := by
  have hle : ¬ (jsToInt32 (render conv (σ.count.map Entry.value)) ≤ 0) := not_le.mpr hn
  simp [attemptStep, hpresent, hcommit, hle]

/-- C2 witness: a concrete committed decrement of 2 units from a count of 5. -/
theorem claimC2_witness :
    attemptStep .numbers 10 1000 2
        ⟨⟨some ⟨5, 300⟩, some ⟨7, 300⟩⟩, 500, false, .bare [.str "OK"]⟩ =
      .ok { total := 10,
            remaining := Max.max (jsToInt32 (render .numbers ((some (⟨5, 300⟩ : Entry)).map Entry.value)) - 2) 0,
            reset := jsToInt32 (render .numbers ((some (⟨7, 300⟩ : Entry)).map Entry.value)) } :=
  claimC2_decr_commit .numbers 10 1000 2 ⟨some ⟨5, 300⟩, some ⟨7, 300⟩⟩ 500 (.bare [.str "OK"])
    (by decide) (by decide) (by decide)

/-- C3: when the read count parses to `n ≤ 0` the call returns
`{total: maximum, remaining: max(n, 0), reset: ex}` at once, issues no
operation against the store, and leaves the store state unchanged. -/
theorem claimC3_exhausted_no_write (conv : ReplyConv) (id : String) (mx : Int)
    (duration : Nat) (decrBy : Int) (σ : Store) (now : Nat) (txnErr : Bool) (txn : MultiReply)
    (hpresent : isAbsentBranch (render conv (σ.count.map Entry.value)) = false)
    (hn : jsToInt32 (render conv (σ.count.map Entry.value)) ≤ 0) :
    attemptStep conv mx duration decrBy ⟨σ, now, txnErr, txn⟩ =
      .ok { total := mx,
            remaining := Max.max (jsToInt32 (render conv (σ.count.map Entry.value))) 0,
            reset := jsToInt32 (render conv (σ.reset.map Entry.value)) } ∧
    attemptOps conv id mx duration decrBy ⟨σ, now, txnErr, txn⟩ = [] ∧
    applyOps id σ (attemptOps conv id mx duration decrBy ⟨σ, now, txnErr, txn⟩) = σ := by
  refine ⟨?_, ?_, ?_⟩ <;> simp [attemptStep, attemptOps, applyOps, hpresent, hn]

/-- C3 witness: a concrete exhausted window (count 0) is read back without
any write. -/
theorem claimC3_witness :
    attemptStep .numbers 10 1000 1 ⟨⟨some ⟨0, 300⟩, some ⟨7, 300⟩⟩, 500, false, .missing⟩ =
      .ok { total := 10,
            remaining := Max.max (jsToInt32 (render .numbers ((some (⟨0, 300⟩ : Entry)).map Entry.value))) 0,
            reset := jsToInt32 (render .numbers ((some (⟨7, 300⟩ : Entry)).map Entry.value)) } ∧
    attemptOps .numbers "i" 10 1000 1 ⟨⟨some ⟨0, 300⟩, some ⟨7, 300⟩⟩, 500, false, .missing⟩ = [] ∧
    applyOps "i" ⟨some ⟨0, 300⟩, some ⟨7, 300⟩⟩
        (attemptOps .numbers "i" 10 1000 1 ⟨⟨some ⟨0, 300⟩, some ⟨7, 300⟩⟩, 500, false, .missing⟩) =
      ⟨some ⟨0, 300⟩, some ⟨7, 300⟩⟩ :=
  claimC3_exhausted_no_write .numbers "i" 10 1000 1 ⟨some ⟨0, 300⟩, some ⟨7, 300⟩⟩ 500 false
    .missing (by decide) (by decide)

/-- C5: the probe branch goes to Initialize exactly when the count key is
absent: a present value `0`, under either client convention (`"0"` string
or number `0`), goes to Decrement, and the condition
`!res[0] && res[0] !== 0` coincides with a presence check on every rendered
stored value. -/
theorem claimC5_presence_branch :
    isAbsentBranch .null = true ∧
    isAbsentBranch (.str "0") = false ∧
    isAbsentBranch (.num 0) = false ∧
    ∀ (conv : ReplyConv) (c : Option Int), isAbsentBranch (render conv c) = c.isNone :=
  ⟨rfl, by decide, by decide, isAbsentBranch_render⟩

/-- An attempt that reaches `exec` without a store error and whose reply
normalizes to "no effect" resolves to a protocol restart. -/
theorem attemptStep_retry (conv : ReplyConv) (mx : Int) (duration : Nat) (decrBy : Int)
    (a : Attempt) (herr : a.txnErr = false) (hnull : isFirstReplyNull a.txn = true)
    (htxn : attemptIssuesTxn conv a = true) :
    attemptStep conv mx duration decrBy a = .retry := by
  by_cases hb : isAbsentBranch (render conv (a.store.count.map Entry.value)) = true
  · cases a
    simp_all [attemptStep]
  · have hb2 : isAbsentBranch (render conv (a.store.count.map Entry.value)) = false :=
      Bool.not_eq_true _ ▸ eq_false_of_ne_true hb
    have hn : 0 < jsToInt32 (render conv (a.store.count.map Entry.value)) := by
      have h := htxn
      simp only [attemptIssuesTxn, hb2, Bool.false_or, decide_eq_true_eq] at h
      exact h
    cases a
    simp_all [attemptStep, not_le.mpr hn]

/-- C4: the "no effect" signal is raised for missing replies and for a
falsy first reply in either client shape, and an attempt that reaches
`exec` and gets that signal does not surface an error: the whole call
restarts against the next probe snapshot, so the eventual outcome is that
of the remaining attempts, independent of the failed attempt's reads. -/
theorem claimC4_conflict_restart :
    isFirstReplyNull .missing = true ∧
    (∀ l, isFirstReplyNull (.bare (.null :: l)) = true) ∧
    (∀ e l, isFirstReplyNull (.paired ((e, .null) :: l)) = true) ∧
    ∀ (conv : ReplyConv) (mx : Int) (duration : Nat) (decrBy : Int)
      (a : Attempt) (rest : List Attempt),
      a.txnErr = false → isFirstReplyNull a.txn = true → attemptIssuesTxn conv a = true →
      runQuery conv mx duration decrBy (a :: rest) = runQuery conv mx duration decrBy rest := by
  refine ⟨rfl, fun l => rfl, fun e l => rfl, ?_⟩
  intro conv mx duration decrBy a rest herr hnull htxn
  simp [runQuery, attemptStep_retry conv mx duration decrBy a herr hnull htxn]

/-- C4 witness: a concrete lost creation race falls through to the rest of
the run. -/
theorem claimC4_witness :
    runQuery .numbers 10 1000 1 [⟨⟨none, none⟩, 0, false, .missing⟩] =
      runQuery .numbers 10 1000 1 [] :=
  claimC4_conflict_restart.2.2.2 .numbers 10 1000 1 ⟨⟨none, none⟩, 0, false, .missing⟩ []
    rfl rfl (by decide)

/-- C6: within one transaction both keys always carry the same millisecond
TTL: the creation transaction sets `count` and `reset` with the configured
duration, and the decrement transaction writes `count` and refreshes
`reset` with `ex*1000 − now`, computed from a single clock reading. -/
theorem claimC6_ttl_alignment (conv : ReplyConv) (id : String) (mx : Int) (duration : Nat)
    (decrBy : Int) (σ : Store) (now : Nat) (txnErr : Bool) (txn : MultiReply) :
    (isAbsentBranch (render conv (σ.count.map Entry.value)) = true →
      attemptOps conv id mx duration decrBy ⟨σ, now, txnErr, txn⟩ =
        [ .setNX (countKey id) (Max.max (mx - (decrBy - 1)) 0) (duration : Int),
          .setNX (resetKey id) (resetEpoch now duration) (duration : Int) ]) ∧
    (isAbsentBranch (render conv (σ.count.map Entry.value)) = false →
      0 < jsToInt32 (render conv (σ.count.map Entry.value)) →
      attemptOps conv id mx duration decrBy ⟨σ, now, txnErr, txn⟩ =
        [ .setXX (countKey id) (jsToInt32 (render conv (σ.count.map Entry.value)) - decrBy)
            (jsToInt32 (render conv (σ.reset.map Entry.value)) * 1000 - (now : Int)),
          .pexpire (resetKey id)
            (jsToInt32 (render conv (σ.reset.map Entry.value)) * 1000 - (now : Int)) ]) := by
  constructor
  · intro hb
    simp [attemptOps, hb]
  · intro hb hn
    simp [attemptOps, hb, not_le.mpr hn]

/-- C6 witness: the concrete creation transaction reuses one TTL for both
keys. -/
theorem claimC6_witness :
    attemptOps .numbers "i" 10 1000 1 ⟨⟨none, none⟩, 500, false, .bare [.str "OK"]⟩ =
      [ .setNX (countKey "i") (Max.max (10 - (1 - 1)) 0) ((1000 : Nat) : Int),
        .setNX (resetKey "i") (resetEpoch 500 1000) ((1000 : Nat) : Int) ] :=
  (claimC6_ttl_alignment .numbers "i" 10 1000 1 ⟨none, none⟩ 500 false
    (.bare [.str "OK"])).1 (by decide)

/-- C9: the decrement transaction has no guard on its computed TTL: when
the parsed reset second satisfies `ex*1000 ≤ now`, the transaction is
still issued, carrying the zero-or-negative expiration `ex*1000 − now` on
both the `count` SET and the `reset` pexpire. -/
theorem claimC9_no_ttl_guard (conv : ReplyConv) (id : String) (mx : Int) (duration : Nat)
    (decrBy : Int) (σ : Store) (now : Nat) (txnErr : Bool) (txn : MultiReply)
    (hpresent : isAbsentBranch (render conv (σ.count.map Entry.value)) = false)
    (hn : 0 < jsToInt32 (render conv (σ.count.map Entry.value)))
    (hstale : jsToInt32 (render conv (σ.reset.map Entry.value)) * 1000 ≤ (now : Int)) :
    attemptOps conv id mx duration decrBy ⟨σ, now, txnErr, txn⟩ =
      [ .setXX (countKey id) (jsToInt32 (render conv (σ.count.map Entry.value)) - decrBy)
          (jsToInt32 (render conv (σ.reset.map Entry.value)) * 1000 - (now : Int)),
        .pexpire (resetKey id)
          (jsToInt32 (render conv (σ.reset.map Entry.value)) * 1000 - (now : Int)) ] ∧
    jsToInt32 (render conv (σ.reset.map Entry.value)) * 1000 - (now : Int) ≤ 0 := by
  refine ⟨?_, by omega⟩
  simp [attemptOps, hpresent, not_le.mpr hn]

/-- C9 witness: a window whose nominal end has passed is still written,
with a negative TTL. -/
theorem claimC9_witness :
    attemptOps .numbers "i" 10 1000 1 ⟨⟨some ⟨3, 50⟩, some ⟨1, 50⟩⟩, 2000, false, .missing⟩ =
      [ .setXX (countKey "i")
          (jsToInt32 (render .numbers ((some (⟨3, 50⟩ : Entry)).map Entry.value)) - 1)
          (jsToInt32 (render .numbers ((some (⟨1, 50⟩ : Entry)).map Entry.value)) * 1000 -
            ((2000 : Nat) : Int)),
        .pexpire (resetKey "i")
          (jsToInt32 (render .numbers ((some (⟨1, 50⟩ : Entry)).map Entry.value)) * 1000 -
            ((2000 : Nat) : Int)) ] ∧
    jsToInt32 (render .numbers ((some (⟨1, 50⟩ : Entry)).map Entry.value)) * 1000 -
      ((2000 : Nat) : Int) ≤ 0 :=
  claimC9_no_ttl_guard .numbers "i" 10 1000 1 ⟨some ⟨3, 50⟩, some ⟨1, 50⟩⟩ 2000 false .missing
    (by decide) (by decide) (by decide)

/-- C10: the `~~` parse sends `null` and non-numeric strings to `0` (and a
parsed `0` short-circuits the call as exhausted, returning remaining `0`
with no write), while numeric values wrap into the signed 32-bit range:
the parse is congruent to the value modulo `2^32`, lands in
`[-2^31, 2^31)`, and is the identity there. -/
theorem claimC10_int32_parse :
    jsToInt32 .null = 0 ∧
    (∀ s : String, strToIntModel s = none → jsToInt32 (.str s) = 0) ∧
    (∀ i : Int, jsToInt32 (.num i) = toInt32 i) ∧
    (∀ s : String, ∀ i : Int, strToIntModel s = some i → jsToInt32 (.str s) = toInt32 i) ∧
    (∀ i : Int, -2 ^ 31 ≤ toInt32 i ∧ toInt32 i < 2 ^ 31 ∧ (2 ^ 32 : Int) ∣ (i - toInt32 i) ∧
      (-2 ^ 31 ≤ i → i < 2 ^ 31 → toInt32 i = i)) ∧
    (∀ (conv : ReplyConv) (id : String) (mx : Int) (duration : Nat) (decrBy : Int)
       (σ : Store) (now : Nat) (txnErr : Bool) (txn : MultiReply),
      isAbsentBranch (render conv (σ.count.map Entry.value)) = false →
      jsToInt32 (render conv (σ.count.map Entry.value)) = 0 →
      attemptStep conv mx duration decrBy ⟨σ, now, txnErr, txn⟩ =
        .ok { total := mx, remaining := 0,
              reset := jsToInt32 (render conv (σ.reset.map Entry.value)) } ∧
      attemptOps conv id mx duration decrBy ⟨σ, now, txnErr, txn⟩ = []) := by
  refine ⟨rfl, ?_, fun i => rfl, ?_, ?_, ?_⟩
  · intro s hs
    simp [jsToInt32, hs]
  · intro s i hs
    simp [jsToInt32, hs]
  · intro i
    refine ⟨?_, ?_, ⟨(i + 2 ^ 31) / 2 ^ 32, ?_⟩, ?_⟩ <;> (unfold toInt32; omega)
  · intro conv id mx duration decrBy σ now txnErr txn hb h0
    constructor
    · simp [attemptStep, hb, h0]
    · simp [attemptOps, hb, h0]

/-- C10 witness: a present count of `2^32` parses to `0` and the call
short-circuits with remaining `0` and no write. -/
theorem claimC10_witness :
    attemptStep .numbers 10 1000 1 ⟨⟨some ⟨2 ^ 32, 50⟩, some ⟨9, 50⟩⟩, 0, false, .missing⟩ =
      .ok { total := 10, remaining := 0,
            reset := jsToInt32 (render .numbers ((some (⟨9, 50⟩ : Entry)).map Entry.value)) } ∧
    attemptOps .numbers "i" 10 1000 1 ⟨⟨some ⟨2 ^ 32, 50⟩, some ⟨9, 50⟩⟩, 0, false, .missing⟩ = [] :=
  claimC10_int32_parse.2.2.2.2.2 .numbers "i" 10 1000 1 ⟨some ⟨2 ^ 32, 50⟩, some ⟨9, 50⟩⟩ 0 false
    .missing (by decide) (by decide)

/-- C7 counterexample: in the unnamed variant a decrement against an
existing window reports as `total` the parsed stored `limit` value, not
the querying instance's configured maximum: with local maximum `100` and
stored `limit = 5` the committed result carries `total = 5`. -/
theorem claimC7_counterexample :
    attemptStepB .numbers 100 3600000 ⟨some ⟨3, 10⟩, some ⟨5, 10⟩, some ⟨200, 10⟩⟩ 0 false
        (.bare [.str "OK"]) =
      .ok { total := 5, remaining := 2, reset := 200 } ∧ (5 : Int) ≠ 100 := by
  decide

/-- C7 amended: the `src/index.js` variant reports its own configured
maximum as `total` in every result it delivers, while the unnamed variant
reports, on an existing window, the value parsed from the stored `limit`
key, which need not match the local configuration. -/
theorem claimC7_total_source (conv : ReplyConv) (mx : Int) (duration : Nat) (decrBy : Int)
    (σ : Store) (σB : StoreB) (now : Nat) (txnErr : Bool) (txn : MultiReply) (r rB : Result) :
    (attemptStep conv mx duration decrBy ⟨σ, now, txnErr, txn⟩ = .ok r → r.total = mx) ∧
    (isAbsentBranch (render conv (σB.count.map Entry.value)) = false →
      attemptStepB conv mx duration σB now txnErr txn = .ok rB →
      rB.total = jsToInt32 (render conv (σB.limit.map Entry.value))) := by
  constructor
  · intro h
    simp only [attemptStep] at h
    split_ifs at h <;> cases h <;> rfl
  · intro hb h
    simp only [attemptStepB, hb, Bool.false_eq_true, if_false] at h
    split_ifs at h <;> cases h <;> rfl

/-- C7 amended witness: concrete instances of both conjuncts. -/
theorem claimC7_amended_witness :
    (Result.mk 10 (Max.max (5 - 1) 0) 9).total = 10 ∧
    (Result.mk 5 2 200).total =
      jsToInt32 (render .numbers ((some (⟨5, 10⟩ : Entry)).map Entry.value)) :=
  ⟨(claimC7_total_source .numbers 10 1000 1 ⟨some ⟨5, 50⟩, some ⟨9, 50⟩⟩
      ⟨some ⟨3, 10⟩, some ⟨5, 10⟩, some ⟨200, 10⟩⟩ 0 false (.bare [.str "OK"])
      (Result.mk 10 (Max.max (5 - 1) 0) 9) (Result.mk 5 2 200)).1 (by decide),
   (claimC7_total_source .numbers 10 1000 1 ⟨some ⟨5, 50⟩, some ⟨9, 50⟩⟩
      ⟨some ⟨3, 10⟩, some ⟨5, 10⟩, some ⟨200, 10⟩⟩ 0 false (.bare [.str "OK"])
      (Result.mk 10 (Max.max (5 - 1) 0) 9) (Result.mk 5 2 200)).2 (by decide) (by decide)⟩

/-- C8 counterexample: on the same fresh store, with `decrBy = 1` and the
same clock, the two variants do not write the same key set: the unnamed
variant's creation transaction writes a `limit` key that the
`src/index.js` variant never touches. -/
theorem claimC8_counterexample :
    limitKey "i" ∈ (attemptOpsB .numbers "i" 10 1000 ⟨none, none, none⟩ 0).map opKey ∧
    limitKey "i" ∉
      (attemptOps .numbers "i" 10 1000 1 ⟨⟨none, none⟩, 0, false, .bare [.str "OK"]⟩).map opKey := by
  decide

/-- C8 amended: for `decrBy = 1`, a positive configured maximum, and a
store whose `limit` key parses back to that same maximum, the two variants
deliver identical outcomes from the same store state, clock and
transaction reply, and issue the same operations on the `count` and
`reset` keys; the unnamed variant additionally creates and refreshes its
`limit` key. -/
theorem claimC8_equiv_modulo_limit (conv : ReplyConv) (id : String) (mx : Int)
    (duration : Nat) (σB : StoreB) (now : Nat) (txnErr : Bool) (txn : MultiReply)
    (hmx : 0 < mx)
    (hl : isAbsentBranch (render conv (σB.count.map Entry.value)) = false →
          jsToInt32 (render conv (σB.limit.map Entry.value)) = mx) :
    attemptStep conv mx duration 1 ⟨⟨σB.count, σB.reset⟩, now, txnErr, txn⟩ =
      attemptStepB conv mx duration σB now txnErr txn ∧
    (attemptOpsB conv id mx duration σB now).filter (fun op => !(opKey op == limitKey id)) =
      attemptOps conv id mx duration 1 ⟨⟨σB.count, σB.reset⟩, now, txnErr, txn⟩ := by
  have hck : ((countKey id == limitKey id) : Bool) = false :=
    beq_eq_false_iff_ne.mpr (countKey_ne_limitKey id)
  have hrk : ((resetKey id == limitKey id) : Bool) = false :=
    beq_eq_false_iff_ne.mpr (resetKey_ne_limitKey id)
  have hmx2 : Max.max (mx - (1 - 1)) 0 = mx := by
    have h1 : mx - (1 - 1) = mx := by ring
    rw [h1]
    exact max_eq_left hmx.le
  by_cases hb : isAbsentBranch (render conv (σB.count.map Entry.value)) = true
  · refine ⟨?_, ?_⟩
    · simp [attemptStep, attemptStepB, hb, hmx2, hmx.le]
    · simp [attemptOps, attemptOpsB, hb, hmx2, hmx.le, List.filter_cons, hck, hrk, opKey]
  · have hb2 : isAbsentBranch (render conv (σB.count.map Entry.value)) = false :=
      Bool.not_eq_true _ ▸ eq_false_of_ne_true hb
    have hlmx := hl hb2
    refine ⟨?_, ?_⟩
    · simp [attemptStep, attemptStepB, hb2, hlmx, int_max_zero]
    · by_cases hn : jsToInt32 (render conv (σB.count.map Entry.value)) ≤ 0
      · simp [attemptOps, attemptOpsB, hb2, hn]
      · simp [attemptOps, attemptOpsB, hb2, hn, List.filter_cons, hck, hrk, opKey]

/-- C8 amended witness: a concrete existing-window decrement where the
stored limit matches the configured maximum. -/
theorem claimC8_amended_witness :
    attemptStep .numbers 10 1000 1
        ⟨⟨(StoreB.mk (some ⟨5, 50⟩) (some ⟨10, 50⟩) (some ⟨9, 50⟩)).count,
          (StoreB.mk (some ⟨5, 50⟩) (some ⟨10, 50⟩) (some ⟨9, 50⟩)).reset⟩, 0, false,
          .bare [.str "OK"]⟩ =
      attemptStepB .numbers 10 1000 (StoreB.mk (some ⟨5, 50⟩) (some ⟨10, 50⟩) (some ⟨9, 50⟩))
        0 false (.bare [.str "OK"]) ∧
    ((attemptOpsB .numbers "i" 10 1000 (StoreB.mk (some ⟨5, 50⟩) (some ⟨10, 50⟩) (some ⟨9, 50⟩))
        0).filter (fun op => !(opKey op == limitKey "i"))) =
      attemptOps .numbers "i" 10 1000 1
        ⟨⟨(StoreB.mk (some ⟨5, 50⟩) (some ⟨10, 50⟩) (some ⟨9, 50⟩)).count,
          (StoreB.mk (some ⟨5, 50⟩) (some ⟨10, 50⟩) (some ⟨9, 50⟩)).reset⟩, 0, false,
          .bare [.str "OK"]⟩ :=
  claimC8_equiv_modulo_limit .numbers "i" 10 1000
    (StoreB.mk (some ⟨5, 50⟩) (some ⟨10, 50⟩) (some ⟨9, 50⟩)) 0 false (.bare [.str "OK"])
    (by decide) (fun _ => by decide)

end RateLimiter
